import Mathlib

/-!
Verification of the workout-summarizer core (plan parsing, lap normalization,
interval matching, aggregation) from `app.py`.

Modelling conventions:
* Python strings are `List Char`; `str.strip`, `str.split` and the `re` patterns
  used by the source are implemented directly on character lists (the source's
  regexes are simple enough that greedy matching never backtracks observably,
  which is noted where it matters).
* Python floats are modelled as exact rationals `ℚ`; the source only ever
  parses short decimal literals and adds/divides them, where IEEE rounding is
  irrelevant to every property considered here.
* Python `dict.get` on optional fields is an `Option` access; "truthiness"
  tests are modelled explicitly (`none` and `0` are falsy).
* Fallible Python code (ZeroDivisionError, ValueError from `float(...)`) is
  modelled in `Except String`.
-/

deriving instance DecidableEq for Except

namespace WorkoutSummarizer

/-- Python whitespace: the characters matched by regex `\s` and stripped by
`str.strip` (ASCII range, the only ones the source can meet). -/
def pySpace (c : Char) : Bool :=
  c = ' ' || c = '\t' || c = '\n' || c = '\x0d' || c = '\x0b' || c = '\x0c'

/-- `str.strip()`. -/
def stripChars (l : List Char) : List Char :=
  ((l.dropWhile pySpace).reverse.dropWhile pySpace).reverse

/-- `text.split('\n')`. -/
def splitOnNl : List Char → List (List Char)
  | [] => [[]]
  | c :: rest =>
    if c = '\n' then [] :: splitOnNl rest
    else
      match splitOnNl rest with
      | [] => [[c]]
      | h :: t => (c :: h) :: t

/-- `s.split(':')`. -/
def splitOnColon : List Char → List (List Char)
  | [] => [[]]
  | c :: rest =>
    if c = ':' then [] :: splitOnColon rest
    else
      match splitOnColon rest with
      | [] => [[c]]
      | h :: t => (c :: h) :: t

/-- Value of a (nonempty) digit string, as produced by Python `int` on a
`\d+` capture. -/
def digitsToNat (l : List Char) : Nat :=
  l.foldl (fun n c => n * 10 + (c.toNat - '0'.toNat)) 0

/-- Python `pat in s` substring test. -/
def containsSub (pat : List Char) : List Char → Bool
  | [] => List.isPrefixOf pat []
  | c :: rest => List.isPrefixOf pat (c :: rest) || containsSub pat rest

/-- Case-insensitive literal match at the front: `pat` is given lowercase;
returns the remaining input on success. -/
def ciStrip : List Char → List Char → Option (List Char)
  | [], l => some l
  | _, [] => none
  | p :: ps, c :: cs => if c.toLower = p then ciStrip ps cs else none

/-- Leftmost-first regex search: try the pattern body at every start
position, left to right (Python `re.search`). -/
def searchLeft {α : Type} (body : List Char → Option α) : List Char → Option α
  | [] => body []
  | c :: rest =>
    match body (c :: rest) with
    | some a => some a
    | none => searchLeft body rest

/-- Boundary `(?:\s|$)`: end of input or a whitespace character next. -/
def atBoundary : List Char → Bool
  | [] => true
  | c :: _ => pySpace c

/-- Body of `([\d.]+)\s*km(?:\s|$)` (case-insensitive).  The greedy classes
cannot backtrack into a successful match here: a digit/dot char given back
would have to match `\s` or `k`, which it cannot. -/
def kmBodyAt (l : List Char) : Option (List Char) :=
  let p := l.span (fun c => c.isDigit || c = '.')
  if p.1.isEmpty then none
  else
    match ciStrip ['k', 'm'] (p.2.dropWhile pySpace) with
    | some r => if atBoundary r then some p.1 else none
    | none => none

/-- `re.search(r'([\d.]+)\s*km(?:\s|$)', line, re.IGNORECASE)`, returning
capture 1. -/
def findKm (l : List Char) : Option (List Char) := searchLeft kmBodyAt l

/-- Body of `(\d+)\s*m(?:\s|$)` (case-insensitive). -/
def metersBodyAt (l : List Char) : Option (List Char) :=
  let p := l.span Char.isDigit
  if p.1.isEmpty then none
  else
    match ciStrip ['m'] (p.2.dropWhile pySpace) with
    | some r => if atBoundary r then some p.1 else none
    | none => none

/-- `re.search(r'(\d+)\s*m(?:\s|$)', line, re.IGNORECASE)`, capture 1. -/
def findMeters (l : List Char) : Option (List Char) := searchLeft metersBodyAt l

/-- Body (after the `(?:^|\s)` anchor) of `(\d+)X(?:\s|$)` where `X` is a
literal unit letter, case-insensitive: digits immediately followed by the
letter, then a boundary. -/
def unitTokBodyAt (unit : Char) (l : List Char) : Option (List Char) :=
  let p := l.span Char.isDigit
  if p.1.isEmpty then none
  else
    match p.2 with
    | c :: r => if c.toLower = unit && atBoundary r then some p.1 else none
    | [] => none

/-- Search for `(?:^|\s)body`: the `^` alternative at position 0, then the
`\s` alternative at each position left to right. -/
def findAfterSpace {α : Type} (body : List Char → Option α) : List Char → Option α
  | [] => none
  | c :: rest =>
    if pySpace c then
      match body rest with
      | some a => some a
      | none => findAfterSpace body rest
    else findAfterSpace body rest

def findAnchored {α : Type} (body : List Char → Option α) (l : List Char) : Option α :=
  match body l with
  | some a => some a
  | none => findAfterSpace body l

/-- `re.search(r'(?:^|\s)(\d+)m(?:\s|$)', line, re.IGNORECASE)`, capture 1. -/
def findMinutes (l : List Char) : Option (List Char) := findAnchored (unitTokBodyAt 'm') l

/-- `re.search(r'(?:^|\s)(\d+)s(?:\s|$)', line, re.IGNORECASE)`, capture 1. -/
def findSeconds (l : List Char) : Option (List Char) := findAnchored (unitTokBodyAt 's') l

/-- Match `(\d+:\d+)` at the front; returns (capture, rest). -/
def mmssAt (l : List Char) : Option (List Char × List Char) :=
  let p := l.span Char.isDigit
  if p.1.isEmpty then none
  else
    match p.2 with
    | ':' :: r2 =>
      let q := r2.span Char.isDigit
      if q.1.isEmpty then none else some (p.1 ++ ':' :: q.1, q.2)
    | _ => none

/-- Body of `(\d+:\d+)(?:\s|$)`. -/
def timeBodyAt (l : List Char) : Option (List Char) :=
  match mmssAt l with
  | some (t, r) => if atBoundary r then some t else none
  | none => none

/-- Auxiliary scan for `findTimeTok`: the `\s` alternative of the anchor,
carrying the index of the whitespace character (= `match.start()`). -/
def findTimeAux : List Char → Nat → Option (Nat × List Char)
  | [], _ => none
  | c :: rest, i =>
    if pySpace c then
      match timeBodyAt rest with
      | some t => some (i, t)
      | none => findTimeAux rest (i + 1)
    else findTimeAux rest (i + 1)

/-- `re.search(r'(?:^|\s)(\d+:\d+)(?:\s|$)', line)` returning
(`match.start()`, capture 1). -/
def findTimeTok (l : List Char) : Option (Nat × List Char) :=
  match timeBodyAt l with
  | some t => some (0, t)
  | none => findTimeAux l 0

/-- Body of `Pace\s*\((\d+:\d+)-(\d+:\d+)\)` (case-insensitive). -/
def swimPaceBodyAt (l : List Char) : Option (List Char × List Char) :=
  match ciStrip ['p', 'a', 'c', 'e'] l with
  | none => none
  | some r1 =>
    match r1.dropWhile pySpace with
    | '(' :: r2 =>
      match mmssAt r2 with
      | some (g1, '-' :: r3) =>
        match mmssAt r3 with
        | some (g2, ')' :: _) => some (g1, g2)
        | _ => none
      | _ => none
    | _ => none

/-- `re.search(r'Pace\s*\((\d+:\d+)-(\d+:\d+)\)', line, re.IGNORECASE)`. -/
def findSwimPace (l : List Char) : Option (List Char × List Char) :=
  searchLeft swimPaceBodyAt l

/-- Body of `\((\d+:\d+)-(\d+:\d+)\)`. -/
def runPaceBodyAt (l : List Char) : Option (List Char × List Char) :=
  match l with
  | '(' :: r1 =>
    match mmssAt r1 with
    | some (g1, '-' :: r2) =>
      match mmssAt r2 with
      | some (g2, ')' :: _) => some (g1, g2)
      | _ => none
    | _ => none
  | _ => none

/-- `re.search(r'\((\d+:\d+)-(\d+:\d+)\)', line)`. -/
def findRunPace (l : List Char) : Option (List Char × List Char) :=
  searchLeft runPaceBodyAt l

/-- Body of `\((\d+)-(\d+)\s*w\)` (case-insensitive). -/
def powerBodyAt (l : List Char) : Option (List Char × List Char) :=
  match l with
  | '(' :: r1 =>
    let p := r1.span Char.isDigit
    if p.1.isEmpty then none
    else
      match p.2 with
      | '-' :: r2 =>
        let q := r2.span Char.isDigit
        if q.1.isEmpty then none
        else
          match ciStrip ['w'] (q.2.dropWhile pySpace) with
          | some (')' :: _) => some (p.1, q.1)
          | _ => none
      | _ => none
  | _ => none

/-- `re.search(r'\((\d+)-(\d+)\s*w\)', line, re.IGNORECASE)`. -/
def findPower (l : List Char) : Option (List Char × List Char) :=
  searchLeft powerBodyAt l

/-- Body of `(\d+)-(\d+)%`. -/
def intensityBodyAt (l : List Char) : Option (List Char × List Char) :=
  let p := l.span Char.isDigit
  if p.1.isEmpty then none
  else
    match p.2 with
    | '-' :: r2 =>
      let q := r2.span Char.isDigit
      if q.1.isEmpty then none
      else
        match q.2 with
        | '%' :: _ => some (p.1, q.1)
        | _ => none
    | _ => none

/-- `re.search(r'(\d+)-(\d+)%', line)`. -/
def findIntensity (l : List Char) : Option (List Char × List Char) :=
  searchLeft intensityBodyAt l

/-- Python `int(s)` on a decimal string: optional sign around digits,
surrounding whitespace allowed; `none` models `ValueError`. -/
def pyIntParse (s : List Char) : Option Int :=
  let t := stripChars s
  match t with
  | '-' :: ds => if ds ≠ [] && ds.all Char.isDigit then some (-(digitsToNat ds : Int)) else none
  | '+' :: ds => if ds ≠ [] && ds.all Char.isDigit then some ((digitsToNat ds : Int)) else none
  | ds => if ds ≠ [] && ds.all Char.isDigit then some ((digitsToNat ds : Int)) else none

/-- Python `float(s)` restricted to the strings a `[\d.]+` capture can
produce: digits with at most one dot, at least one digit; `none` models
`ValueError` (e.g. on `"1.2.3"` or `".."`).  The value is exact (floats are
modelled as rationals). -/
def parseFloatQ (s : List Char) : Option ℚ :=
  if s.any Char.isDigit && (s.filter (· = '.')).length ≤ 1
      && s.all (fun c => c.isDigit || c = '.') then
    let intPart := s.takeWhile Char.isDigit
    let rest := s.dropWhile Char.isDigit
    let fracPart := match rest with
      | '.' :: fs => fs
      | _ => []
    some ((digitsToNat intPart : ℚ) + (digitsToNat fracPart : ℚ) / ((10 : ℚ) ^ fracPart.length))
  else none

/-- `parse_pace_to_speed`: "MM:SS" min/km → speed m/s (0 on failure). -/
def parse_pace_to_speed (s : List Char) : ℚ :=
  match splitOnColon (stripChars s) with
  | [m, sec] =>
    match pyIntParse m, pyIntParse sec with
    | some mm, some ss =>
      let total : Int := mm * 60 + ss
      if 0 < total then 1000 / (total : ℚ) else 0
    | _, _ => 0
  | _ => 0

/-- `parse_swim_pace_to_speed`: "MM:SS" min/100m → speed m/s (0 on failure). -/
def parse_swim_pace_to_speed (s : List Char) : ℚ :=
  match splitOnColon (stripChars s) with
  | [m, sec] =>
    match pyIntParse m, pyIntParse sec with
    | some mm, some ss =>
      let total : Int := mm * 60 + ss
      if 0 < total then 100 / (total : ℚ) else 0
    | _, _ => 0
  | _ => 0

/-- `parse_duration_text`: anchored `(\d+):(\d+)`, else `(\d+)\s*m`, else
`(\d+)\s*s` (case-insensitive), else 0. -/
def parse_duration_text (s : List Char) : Nat :=
  match mmssAt s with
  | some (_, _) =>
    let p := s.span Char.isDigit
    let q := (p.2.drop 1).span Char.isDigit
    digitsToNat p.1 * 60 + digitsToNat q.1
  | none =>
    let p := s.span Char.isDigit
    if p.1.isEmpty then 0
    else
      match ciStrip ['m'] (p.2.dropWhile pySpace) with
      | some _ => digitsToNat p.1 * 60
      | none =>
        match ciStrip ['s'] (p.2.dropWhile pySpace) with
        | some _ => digitsToNat p.1
        | none => 0

/-- `get_interval_type`: keyword cascade on the lower-cased text; RECOVERY
first, WORK is the default. -/
def get_interval_type (l : List Char) : String :=
  let t := l.map Char.toLower
  if (["rest", "recovery", "easy", "off", "active"].map String.toList).any
      (fun k => containsSub k t) then "RECOVERY"
  else if (["warmup", "warm up", "warm-up", "warm down"].map String.toList).any
      (fun k => containsSub k t) then "WARMUP"
  else if (["cooldown", "cool down", "cool-down", "cool"].map String.toList).any
      (fun k => containsSub k t) then "COOL"
  else if (["work", "hard", "harder", "on", "interval", "main set"].map String.toList).any
      (fun k => containsSub k t) then "WORK"
  else "WORK"

/-- `get_swim_stroke`: first key of the stroke table (dict insertion order)
contained in the lower-cased text wins. -/
def get_swim_stroke (l : List Char) : Option String :=
  let t := l.map Char.toLower
  let table : List (String × String) :=
    [("fs", "Freestyle"), ("freestyle", "Freestyle"), ("free", "Freestyle"),
     ("back", "Backstroke"), ("backstroke", "Backstroke"),
     ("breast", "Breaststroke"), ("breaststroke", "Breaststroke"),
     ("fly", "Butterfly"), ("butterfly", "Butterfly"),
     ("im", "IM"), ("pull", "Pull"), ("kick", "Kick"),
     ("drill", "Drill"), ("choice", "Choice")]
  (table.find? (fun kv => containsSub kv.1.toList t)).map (·.2)

/-- One parsed planned block (the dict built by `parse_intervals_icu_line`,
with the `is_main_set` / `round_number` keys `parse_plan_text` adds later). -/
structure Block where
  /-- the dict key is `'type'` (not a usable field name in Lean) -/
  interval_type : String
  duration_seconds : Nat
  target_distance_m : Option ℚ
  swim_stroke : Option String
  pace_range : Option String
  target_pace_min_ms : Option ℚ
  target_pace_max_ms : Option ℚ
  power_range : Option String
  target_power_min : Option Nat
  target_power_max : Option Nat
  intensity_range : Option String
  raw_text : String
  is_main_set : Bool := false
  round_number : Option Nat := none
deriving DecidableEq, Repr

/-- `re.sub(r'^(Warm Up|Main Set|Warm Down|Cool Down):\s*', '', line, I)`. -/
def stripLabel (l : List Char) : List Char :=
  let tryOne (lbl : String) (rest : Option (List Char)) : Option (List Char) :=
    match rest with
    | some r => some r
    | none =>
      match ciStrip lbl.toList l with
      | some (':' :: r) => some (r.dropWhile pySpace)
      | _ => none
  match tryOne "warm up" (tryOne "main set" (tryOne "warm down" (tryOne "cool down" none))) with
  | some r => r
  | none => l

/-- Distance extraction: a `km` token (×1000) preferred over a bare `m`
token; `float` on the km capture can raise. -/
def distOf (line : List Char) : Except String (Option ℚ) :=
  match findKm line with
  | some ds =>
    match parseFloatQ ds with
    | some q => .ok (some (q * 1000))
    | none => .error "ValueError: could not convert string to float"
  | none =>
    match findMeters line with
    | some ds => .ok (some ((digitsToNat ds : ℚ)))
    | none => .ok none

/-- Duration extraction: minutes token, else seconds token, else a bare
`MM:SS` accepted only when no unclosed `(` precedes it. -/
def durationOf (line : List Char) : Nat :=
  match findMinutes line with
  | some ds => digitsToNat ds * 60
  | none =>
    match findSeconds line with
    | some ds => digitsToNat ds
    | none =>
      match findTimeTok line with
      | some (p, tok) =>
        if !(line.take p).contains '(' || (line.take p).contains ')' then
          parse_duration_text tok
        else 0
      | none => 0

/-- Pace extraction: swim form `Pace (a-b)` first (min speed from the second
capture), else bare `(a-b)` (min speed likewise from the second capture). -/
def paceFieldsOf (line : List Char) : Option String × Option ℚ × Option ℚ :=
  match findSwimPace line with
  | some (g1, g2) =>
    (some (String.mk (g1 ++ '–' :: g2)),
     some (parse_swim_pace_to_speed g2), some (parse_swim_pace_to_speed g1))
  | none =>
    match findRunPace line with
    | some (g1, g2) =>
      (some (String.mk (g1 ++ '–' :: g2)),
       some (parse_pace_to_speed g2), some (parse_pace_to_speed g1))
    | none => (none, none, none)

/-- Power extraction `(a-bw)`. -/
def powerFieldsOf (line : List Char) : Option String × Option Nat × Option Nat :=
  match findPower line with
  | some (g1, g2) =>
    (some (toString (digitsToNat g1) ++ "–" ++ toString (digitsToNat g2) ++ "W"),
     some (digitsToNat g1), some (digitsToNat g2))
  | none => (none, none, none)

/-- Intensity extraction `a-b%` (display string keeps the raw captures). -/
def intensityOf (line : List Char) : Option String :=
  (findIntensity line).map fun g => String.mk g.1 ++ "–" ++ String.mk g.2 ++ "%"

/-- `parse_intervals_icu_line`. -/
def parse_intervals_icu_line (line0 : List Char) : Except String (Option Block) :=
  let line1 := stripChars line0
  if line1.isEmpty then .ok none
  else
    let line := stripLabel line1
    if line.isEmpty then .ok none
    else
      match distOf line with
      | .error e => .error e
      | .ok dist =>
        let pace := paceFieldsOf line
        let power := powerFieldsOf line
        .ok (some
          { interval_type := get_interval_type line
            duration_seconds := durationOf line
            target_distance_m := dist
            swim_stroke := get_swim_stroke line
            pace_range := pace.1
            target_pace_min_ms := pace.2.1
            target_pace_max_ms := pace.2.2
            power_range := power.1
            target_power_min := power.2.1
            target_power_max := power.2.2
            intensity_range := intensityOf line
            raw_text := String.mk line })

/-- `re.match(r'^(\d+)\s*[xX]\s*$', line)`: repetition count. -/
def standaloneMult (l : List Char) : Option Nat :=
  let p := l.span Char.isDigit
  if p.1.isEmpty then none
  else
    match p.2.dropWhile pySpace with
    | c :: r =>
      if (c = 'x' || c = 'X') && (r.dropWhile pySpace).isEmpty then some (digitsToNat p.1)
      else none
    | [] => none

/-- `re.match(r'^(\d+)\s*[xX]\s+(.+)', line)`: count and the rest of the
line.  When nothing but whitespace follows the `x`, `\s+` backtracks one
character which `.+` then consumes (unreachable after `str.strip`, but
modelled faithfully). -/
def inlineMult (l : List Char) : Option (Nat × List Char) :=
  let p := l.span Char.isDigit
  if p.1.isEmpty then none
  else
    match p.2.dropWhile pySpace with
    | c :: r =>
      if c = 'x' || c = 'X' then
        let q := r.span pySpace
        if q.1.isEmpty then none
        else if !q.2.isEmpty then some (digitsToNat p.1, q.2)
        else if 2 ≤ q.1.length then some (digitsToNat p.1, [q.1.getLastD ' '])
        else none
      else none
    | [] => none

/-- `re.match(r'^(Warm up \d|Cool Down)', line, re.IGNORECASE)`. -/
def sectionBreak (l : List Char) : Bool :=
  (match ciStrip "warm up ".toList l with
   | some (c :: _) => c.isDigit
   | _ => false)
  || (ciStrip "cool down".toList l).isSome

/-- `re.split(r',\s*(?=[A-Za-z])', s)`: split at commas followed by
(skippable whitespace and) a letter; the whitespace is consumed with the
delimiter.  The fuel argument (one unit per character consumed, so the
input length suffices) makes the recursion structural. -/
def splitPartsF : Nat → List Char → List (List Char)
  | 0, _ => [[]]
  | _ + 1, [] => [[]]
  | fuel + 1, c :: rest =>
    if c = ',' && (match rest.dropWhile pySpace with
                   | c2 :: _ => c2.isAlpha
                   | [] => false) then
      [] :: splitPartsF fuel (rest.dropWhile pySpace)
    else
      match splitPartsF fuel rest with
      | [] => [[c]]
      | h :: t => (c :: h) :: t

def splitParts (l : List Char) : List (List Char) := splitPartsF l.length l

/-- Output filter: `interval['duration_seconds'] > 0 or
interval.get('target_distance_m')` (Python truthiness: `None` and `0.0`
both fail). -/
def keepBlock (b : Block) : Bool :=
  decide (0 < b.duration_seconds)
  || (match b.target_distance_m with
      | some d => decide (d ≠ 0)
      | none => false)

/-- Repetition expansion: replicate the sub-blocks `reps` times, stamping
1-based round numbers only when `reps > 1`. -/
def expandReps (reps : Nat) (subs : List Block) : List Block :=
  (List.range reps).flatMap fun r =>
    subs.map fun b =>
      { b with round_number := if 1 < reps then some (r + 1) else none }

/-- The body-collection loop of a standalone multiplier: consume lines
(skipping blanks, parsing and filtering candidates, tagging
`is_main_set`) until another multiplier, a section header, or the end;
returns the kept sub-blocks (or the first parse error) together with the
unconsumed remainder of the line list. -/
def collectBody : List (List Char) → Except String (List Block) × List (List Char)
  | [] => (.ok [], [])
  | ln :: rest =>
    let l := stripChars ln
    if l.isEmpty then collectBody rest
    else if (standaloneMult l).isSome then (.ok [], ln :: rest)
    else if sectionBreak l then (.ok [], ln :: rest)
    else
      match parse_intervals_icu_line l with
      | .error e => (.error e, ln :: rest)
      | .ok ob =>
        match collectBody rest with
        | (.error e, rem) => (.error e, rem)
        | (.ok subs, rem) =>
          match ob with
          | some b =>
            if keepBlock b then (.ok ({ b with is_main_set := true } :: subs), rem)
            else (.ok subs, rem)
          | none => (.ok subs, rem)

theorem collectBody_rem_length (L : List (List Char)) :
    (collectBody L).2.length ≤ L.length := by
  induction L with
  | nil => simp [collectBody]
  | cons ln rest ih =>
    rw [collectBody]
    split
    · exact Nat.le_succ_of_le ih
    · split
      · exact Nat.le_refl _
      · split
        · exact Nat.le_refl _
        · split
          · exact Nat.le_refl _
          · split
            · next subs rem heq =>
              rw [heq] at ih
              exact Nat.le_succ_of_le ih
            · next subs rem heq =>
              rw [heq] at ih
              dsimp only at ih ⊢
              split
              · split
                · exact Nat.le_succ_of_le ih
                · exact Nat.le_succ_of_le ih
              · exact Nat.le_succ_of_le ih

/-- Parse the sub-intervals of an inline multiplier's comma-split parts
(first parse error aborts, Python exception style). -/
def parseParts : List (List Char) → Except String (List Block)
  | [] => .ok []
  | part :: rest =>
    match parse_intervals_icu_line part with
    | .error e => .error e
    | .ok ob =>
      match parseParts rest with
      | .error e => .error e
      | .ok subs =>
        match ob with
        | some b =>
          if keepBlock b then .ok ({ b with is_main_set := true } :: subs)
          else .ok subs
        | none => .ok subs

/-- The main line loop of `parse_plan_text` over already-split lines.  The
running `num_rounds = max(num_rounds, repetitions)` fold is reassociated to
the right (max is commutative and associative, so the result is the same
maximum).  The fuel argument (one unit per line consumed by this loop —
`collectBody_rem_length` shows the body collection only shrinks the rest,
so the line count suffices) makes the recursion structural. -/
def parsePlanLinesF : Nat → List (List Char) → Except String (List Block × Nat)
  | 0, _ => .ok ([], 0)
  | _ + 1, [] => .ok ([], 0)
  | fuel + 1, ln :: rest =>
    let line := stripChars ln
    if line.isEmpty || line.headD ' ' = '#' then parsePlanLinesF fuel rest
    else
      match standaloneMult line with
      | some reps =>
        match collectBody rest with
        | (.error e, _) => .error e
        | (.ok subs, rem) =>
          match parsePlanLinesF fuel rem with
          | .error e => .error e
          | .ok (bs, nr) =>
            .ok (expandReps reps subs ++ bs, if 1 < reps then max nr reps else nr)
      | none =>
        match inlineMult line with
        | some (reps, restLine) =>
          match parseParts (splitParts restLine) with
          | .error e => .error e
          | .ok subs =>
            match parsePlanLinesF fuel rest with
            | .error e => .error e
            | .ok (bs, nr) =>
              .ok (expandReps reps subs ++ bs, if 1 < reps then max nr reps else nr)
        | none =>
          match parse_intervals_icu_line line with
          | .error e => .error e
          | .ok ob =>
            match parsePlanLinesF fuel rest with
            | .error e => .error e
            | .ok (bs, nr) =>
              match ob with
              | some b =>
                if keepBlock b then .ok ({ b with is_main_set := false } :: bs, nr)
                else .ok (bs, nr)
              | none => .ok (bs, nr)

def parsePlanLines (L : List (List Char)) : Except String (List Block × Nat) :=
  parsePlanLinesF L.length L

/-- `parse_plan_text`. -/
def parse_plan_text (text : String) : Except String (List Block × Nat) :=
  parsePlanLines (splitOnNl (stripChars text.toList))

/-- Python `/`: raises `ZeroDivisionError` on a zero divisor. -/
def pyDiv (a b : ℚ) : Except String ℚ :=
  if b = 0 then .error "ZeroDivisionError: division by zero" else .ok (a / b)

/-- Python `int(x)` on a number: truncation toward zero. -/
def pyInt (q : ℚ) : Int :=
  if 0 ≤ q then ⌊q⌋ else -⌊-q⌋

/-- Python `round(x, nd)` rounding step: round half to even to an integer
(applied after scaling; exact on the rational model of the float). -/
def roundHalfEven (q : ℚ) : Int :=
  let n := ⌊q⌋
  if q - n < 1 / 2 then n
  else if 1 / 2 < q - n then n + 1
  else if n % 2 = 0 then n else n + 1

/-- `f"{n:02d}"` for a small nonnegative value. -/
def pad2 (n : Nat) : String :=
  if n < 10 then "0" ++ toString n else toString n

/-- `f"{x:.1f}"` (fixed, one decimal, round half to even). -/
def formatFixed1 (q : ℚ) : String :=
  let c := roundHalfEven (q * 10)
  let sign := if c < 0 then "-" else ""
  let a := c.natAbs
  sign ++ toString (a / 10) ++ "." ++ toString (a % 10)

/-- `f"{x:.2f}"` (fixed, two decimals, round half to even). -/
def formatFixed2 (q : ℚ) : String :=
  let c := roundHalfEven (q * 100)
  let sign := if c < 0 then "-" else ""
  let a := c.natAbs
  sign ++ toString (a / 100) ++ "." ++ pad2 (a % 100)

/-- `format_pace`: speed (m/s) → "M:SS" min/km, `"--:--"` when the speed is
not positive.  The division `1000 / speed_ms` is behind that guard. -/
def format_pace (speed_ms : ℚ) : Except String String :=
  if speed_ms ≤ 0 then .ok "--:--"
  else
    match pyDiv 1000 speed_ms with
    | .error e => .error e
    | .ok p =>
      let minutes : Int := ⌊p / 60⌋
      let seconds : Int := ⌊p - 60 * (minutes : ℚ)⌋
      .ok (toString minutes ++ ":" ++ pad2 seconds.toNat)

/-- `format_swim_pace`: speed (m/s) → "M:SS" min/100m, `"--:--"` when the
speed is not positive. -/
def format_swim_pace (speed_ms : ℚ) : Except String String :=
  if speed_ms ≤ 0 then .ok "--:--"
  else
    match pyDiv 100 speed_ms with
    | .error e => .error e
    | .ok p =>
      let minutes : Int := ⌊p / 60⌋
      let seconds : Int := ⌊p - 60 * (minutes : ℚ)⌋
      .ok (toString minutes ++ ":" ++ pad2 seconds.toNat)

/-- `format_speed`: speed (m/s) → km/h with one decimal, `"--.-"` when not
positive (3.6 is exact in the rational model). -/
def format_speed (speed_ms : ℚ) : String :=
  if speed_ms ≤ 0 then "--.-"
  else formatFixed1 (speed_ms * (18 / 5))

/-- `format_duration` on `int(seconds)`: negative clamps to 0; `M:SS` below
an hour, else `H:MM:SS`. -/
def format_duration (seconds : Int) : String :=
  let s : Nat := seconds.toNat
  if s < 3600 then toString (s / 60) ++ ":" ++ pad2 (s % 60)
  else toString (s / 3600) ++ ":" ++ pad2 ((s % 3600) / 60) ++ ":" ++ pad2 (s % 60)

/-- One normalized lap, carrying exactly the keys the Interval Matcher and
the Aggregator read from a lap dict. -/
structure Lap where
  duration_seconds : ℚ
  distance_m : ℚ
  avg_hr : Option ℚ
  max_hr : Option ℚ
  cadence : Option ℚ
  avg_power : Option ℚ
  total_strokes : Option ℚ
  swim_stroke : Option String
  is_rest : Bool
deriving DecidableEq, Repr

/-- Python truthiness filter on an optional numeric field (`None` and `0`
are falsy). -/
def truthyQ : Option ℚ → Option ℚ
  | some v => if v = 0 then none else some v
  | none => none

/-- Truthiness of an optional distance target. -/
def isTruthyDist : Option ℚ → Bool
  | some d => decide (d ≠ 0)
  | none => false

/-- The synthesized `combined` aggregate of a matched group. -/
structure Combined where
  sport : String
  duration_seconds : ℚ
  distance_m : ℚ
  avg_speed_ms : ℚ
  avg_pace : String
  swim_pace : String
  avg_speed_kmh : String
  start_hr : Option ℚ
  end_hr : Option ℚ
  avg_hr : Option ℚ
  max_hr : ℚ
  cadence : Option Int
  avg_power : Option Int
  total_strokes : ℚ
  swim_stroke : Option String
  is_rest : Bool
  num_laps_combined : Nat
deriving DecidableEq, Repr

/-- One matched group: a planned block with its consumed laps. -/
structure Group where
  planned : Block
  actual_laps : List Lap
  combined : Option Combined
deriving DecidableEq, Repr

/-- The swim-branch consumption loop of `group_laps_by_planned`: stop
before appending when the accumulated distance is positive and already
within tolerance, otherwise append and stop when within tolerance after
appending.  (The loop also accumulates duration, which it never reads;
that accumulator is omitted.) -/
def swimConsume (target tol : ℚ) (acc : ℚ) : List Lap → List Lap × List Lap
  | [] => ([], [])
  | lap :: rest =>
    if 0 < acc ∧ target - tol ≤ acc then ([], lap :: rest)
    else if target - tol ≤ acc + lap.distance_m then ([lap], rest)
    else
      let r := swimConsume target tol (acc + lap.distance_m) rest
      (lap :: r.1, r.2)

/-- The duration-branch consumption loop, same accumulate-and-stop shape
against accumulated duration. -/
def durConsume (target tol : ℚ) (acc : ℚ) : List Lap → List Lap × List Lap
  | [] => ([], [])
  | lap :: rest =>
    if 0 < acc ∧ target - tol ≤ acc then ([], lap :: rest)
    else if target - tol ≤ acc + lap.duration_seconds then ([lap], rest)
    else
      let r := durConsume target tol (acc + lap.duration_seconds) rest
      (lap :: r.1, r.2)

/-- Lap consumption for one planned block: swim distance matching
(tolerance 15 m), else duration matching (tolerance `max(10, 0.15·target)`),
else exactly one lap.  The remaining-lap suffix models the forward pointer. -/
def consumeFor (sport : String) (p : Block) (laps : List Lap) : List Lap × List Lap :=
  if sport = "swimming" && isTruthyDist p.target_distance_m then
    match p.target_distance_m with
    | some d => swimConsume d 15 0 laps
    | none => ([], laps)
  else if p.duration_seconds ≠ 0 then
    durConsume (p.duration_seconds : ℚ) (max 10 ((p.duration_seconds : ℚ) * (3 / 20))) 0 laps
  else
    match laps with
    | [] => ([], [])
    | lap :: rest => ([lap], rest)

/-- Maximum of a list of rationals (Python `max(...)` on a nonempty
generator; 0 for the unreachable empty case). -/
def listMaxQ : List ℚ → ℚ
  | [] => 0
  | v :: vs => vs.foldl max v

/-- Mean of the laps that report a (truthy) value: `sum/len` behind the
nonemptiness guard. -/
def avgQOf (values : List ℚ) : Except String (Option ℚ) :=
  match values with
  | [] => .ok none
  | _ =>
    match pyDiv values.sum (values.length : ℚ) with
    | .error e => .error e
    | .ok v => .ok (some v)

/-- Mean of the laps that report a (truthy) value, truncated to an int:
`int(sum/len)` behind the nonemptiness guard. -/
def avgIntOf (values : List ℚ) : Except String (Option Int) :=
  match values with
  | [] => .ok none
  | _ =>
    match pyDiv values.sum (values.length : ℚ) with
    | .error e => .error e
    | .ok v => .ok (some (pyInt v))

/-- Synthesize one matched group from a planned block and its consumed
laps (`combined` stays `None` when no lap was consumed). -/
def mkGroup (sport : String) (p : Block) (laps : List Lap) : Except String Group :=
  match laps with
  | [] => .ok ⟨p, [], none⟩
  | l0 :: _ =>
    let total_duration := (laps.map (·.duration_seconds)).sum
    let total_distance := (laps.map (·.distance_m)).sum
    let avgSpeedE : Except String ℚ :=
      if 0 < total_duration then pyDiv total_distance total_duration else .ok 0
    match avgSpeedE with
    | .error e => .error e
    | .ok avg_speed =>
      let hr_values := laps.filterMap (fun l => truthyQ l.avg_hr)
      let cadence_values := laps.filterMap (fun l => truthyQ l.cadence)
      let power_values := laps.filterMap (fun l => truthyQ l.avg_power)
      let strokes := (laps.map (fun l => (truthyQ l.total_strokes).getD 0)).sum
      match format_pace avg_speed with
      | .error e => .error e
      | .ok ap =>
        match format_swim_pace avg_speed with
        | .error e => .error e
        | .ok sp =>
          match avgQOf hr_values with
          | .error e => .error e
          | .ok avg_hr =>
            match avgIntOf cadence_values with
            | .error e => .error e
            | .ok cad =>
              match avgIntOf power_values with
              | .error e => .error e
              | .ok pow =>
                .ok ⟨p, laps, some
                  { sport := sport
                    duration_seconds := total_duration
                    distance_m := total_distance
                    avg_speed_ms := avg_speed
                    avg_pace := ap
                    swim_pace := sp
                    avg_speed_kmh := format_speed avg_speed
                    start_hr := l0.avg_hr
                    end_hr := (laps.getLastD l0).max_hr
                    avg_hr := avg_hr
                    max_hr := listMaxQ (laps.map (fun l => (truthyQ l.max_hr).getD 0))
                    cadence := cad
                    avg_power := pow
                    total_strokes := strokes
                    swim_stroke := l0.swim_stroke
                    is_rest := laps.all (·.is_rest)
                    num_laps_combined := laps.length }⟩

/-- `group_laps_by_planned`: one forward pass, each planned block consuming
a prefix of the remaining laps. -/
def group_laps_by_planned (planned : List Block) (laps : List Lap) (sport : String) :
    Except String (List Group) :=
  match planned with
  | [] => .ok []
  | p :: ps =>
    let c := consumeFor sport p laps
    match mkGroup sport p c.1 with
    | .error e => .error e
    | .ok g =>
      match group_laps_by_planned ps c.2 sport with
      | .error e => .error e
      | .ok gs => .ok (g :: gs)

/-- `round(x, 1)`: round half to even at one decimal (exact on the
rational model). -/
def roundTo1 (q : ℚ) : ℚ :=
  (roundHalfEven (q * 10) : ℚ) / 10

/-- Python `a or b` on an optional numeric and a fallback value. -/
def truthyOrQ (a : Option ℚ) (b : ℚ) : ℚ :=
  match truthyQ a with
  | some v => v
  | none => b

/-- Python `a or b` on two optional numerics. -/
def pyOrOpt (a b : Option ℚ) : Option ℚ :=
  match truthyQ a with
  | some v => some v
  | none => b

/-- One raw FIT lap record, restricted to the keys `process_fit_laps`
reads; `none` models both a missing key and a stored `None`.  Timestamps
are abstract instants. -/
structure RawLap where
  total_elapsed_time : Option ℚ := none
  total_distance : Option ℚ := none
  enhanced_avg_speed : Option ℚ := none
  avg_speed : Option ℚ := none
  enhanced_max_speed : Option ℚ := none
  max_speed : Option ℚ := none
  avg_heart_rate : Option ℚ := none
  max_heart_rate : Option ℚ := none
  avg_power : Option ℚ := none
  max_power : Option ℚ := none
  normalized_power : Option ℚ := none
  avg_cadence : Option ℚ := none
  max_cadence : Option ℚ := none
  avg_running_cadence : Option ℚ := none
  max_running_cadence : Option ℚ := none
  swim_stroke : Option String := none
  total_cycles : Option ℚ := none
  num_active_lengths : Option ℚ := none
  num_lengths : Option ℚ := none
  avg_stance_time : Option ℚ := none
  avg_step_length : Option ℚ := none
  left_right_balance : Option Nat := none
  avg_temperature : Option ℚ := none
  total_ascent : Option ℚ := none
  total_descent : Option ℚ := none
  start_time : Option Int := none
deriving DecidableEq, Repr

/-- `convert_to_local_time`: a timezone conversion re-labels the same
instant; on abstract instants it is the identity (and maps `None` to
`None`). -/
def convert_to_local_time (t : Option Int) : Option Int := t

/-- One normalized lap as built by `process_fit_laps` (every key of the
emitted dict). -/
structure ProcessedLap where
  lap_number : Nat
  original_lap_number : Nat
  start_time : Option Int
  sport : String
  duration_seconds : ℚ
  distance_m : ℚ
  avg_speed_ms : ℚ
  max_speed_ms : ℚ
  avg_pace : String
  swim_pace : String
  avg_speed_kmh : String
  avg_hr : Option ℚ
  max_hr : Option ℚ
  avg_power : Option Int
  max_power : Option Int
  normalized_power : Option Int
  cadence : Option Int
  max_cadence : Option Int
  swim_stroke : Option String
  total_strokes : Option ℚ
  num_lengths : ℚ
  swolf : Option ℚ
  gct : Option Int
  stride_length : Option ℚ
  temperature : Option Int
  total_ascent : ℚ
  total_descent : ℚ
  left_balance : Option ℚ
  is_rest : Bool
deriving DecidableEq, Repr

/-- Build one processed lap from a surviving raw lap (`i` is the 0-based
source index, `kept` the number of laps already kept). -/
def processOne (sport : String) (i kept : Nat) (lap : RawLap) : Except String ProcessedLap :=
  let total_elapsed_time := lap.total_elapsed_time.getD 0
  let total_distance := lap.total_distance.getD 0
  let avg_speed := truthyOrQ lap.enhanced_avg_speed (lap.avg_speed.getD 0)
  let max_speed := truthyOrQ lap.enhanced_max_speed (lap.max_speed.getD 0)
  let avg_cadence : Option ℚ :=
    if sport = "cycling" then lap.avg_cadence
    else if sport = "swimming" then lap.avg_cadence
    else pyOrOpt lap.avg_running_cadence lap.avg_cadence
  let max_cadence : Option ℚ :=
    if sport = "cycling" then lap.max_cadence
    else if sport = "swimming" then none
    else pyOrOpt lap.max_running_cadence lap.max_cadence
  let total_strokes := lap.total_cycles
  let num_lengths := truthyOrQ lap.num_active_lengths (lap.num_lengths.getD 0)
  let left_balance : Option ℚ :=
    match lap.left_right_balance with
    | some n => if n ≠ 0 && sport = "cycling" then some (roundTo1 (((n &&& 0x7FFF : Nat) : ℚ) / 100)) else none
    | none => none
  let swolf : Option ℚ :=
    if sport = "swimming" && num_lengths = 1 && (truthyQ total_strokes).isSome then
      some ((pyInt total_elapsed_time : ℚ) + (truthyQ total_strokes).getD 0)
    else none
  match format_pace avg_speed with
  | .error e => .error e
  | .ok ap =>
    match format_swim_pace avg_speed with
    | .error e => .error e
    | .ok spc =>
      .ok
        { lap_number := kept + 1
          original_lap_number := i + 1
          start_time := convert_to_local_time lap.start_time
          sport := sport
          duration_seconds := total_elapsed_time
          distance_m := total_distance
          avg_speed_ms := avg_speed
          max_speed_ms := max_speed
          avg_pace := ap
          swim_pace := spc
          avg_speed_kmh := format_speed avg_speed
          avg_hr := lap.avg_heart_rate
          max_hr := lap.max_heart_rate
          avg_power := (truthyQ lap.avg_power).map pyInt
          max_power := (truthyQ lap.max_power).map pyInt
          normalized_power := (truthyQ lap.normalized_power).map pyInt
          cadence :=
            match truthyQ avg_cadence with
            | some v => if sport = "running" then some (pyInt (v * 2)) else some (pyInt v)
            | none => none
          max_cadence :=
            match truthyQ max_cadence with
            | some v => if sport = "running" then some (pyInt (v * 2)) else some (pyInt v)
            | none => none
          swim_stroke := lap.swim_stroke
          total_strokes := total_strokes
          num_lengths := num_lengths
          swolf := swolf
          gct := (truthyQ lap.avg_stance_time).map pyInt
          stride_length := (truthyQ lap.avg_step_length).map (fun v => roundTo1 (v / 10))
          temperature := (truthyQ lap.avg_temperature).map pyInt
          total_ascent := lap.total_ascent.getD 0
          total_descent := lap.total_descent.getD 0
          left_balance := left_balance
          is_rest := total_distance = 0 || (sport = "swimming" && num_lengths = 0) }

/-- The filter-and-number loop of `process_fit_laps`. -/
def processFitAux (sport : String) (min_duration : Int) :
    List RawLap → Nat → Nat → Except String (List ProcessedLap)
  | [], _, _ => .ok []
  | lap :: rest, i, kept =>
    let tet := lap.total_elapsed_time.getD 0
    if (sport ≠ "swimming" && tet < (min_duration : ℚ)) ||
       (sport = "swimming" && tet < 3) then
      processFitAux sport min_duration rest (i + 1) kept
    else
      match processOne sport i kept lap with
      | .error e => .error e
      | .ok p =>
        match processFitAux sport min_duration rest (i + 1) (kept + 1) with
        | .error e => .error e
        | .ok ps => .ok (p :: ps)

/-- `process_fit_laps`. -/
def process_fit_laps (laps : List RawLap) (sport : String) (min_duration : Int) :
    Except String (List ProcessedLap) :=
  processFitAux sport min_duration laps 0 0

/-- Re-reading a processed lap dict through the raw-lap keys
`process_fit_laps` reads (the "treated as already-normalized input"
round-trip): only the keys present in the emitted dict survive; in
particular there is no `total_elapsed_time` key. -/
def rawOfProcessed (p : ProcessedLap) : RawLap :=
  { avg_power := p.avg_power.map (fun n => (n : ℚ))
    max_power := p.max_power.map (fun n => (n : ℚ))
    normalized_power := p.normalized_power.map (fun n => (n : ℚ))
    max_cadence := p.max_cadence.map (fun n => (n : ℚ))
    swim_stroke := p.swim_stroke
    num_lengths := some p.num_lengths
    total_ascent := some p.total_ascent
    total_descent := some p.total_descent
    start_time := p.start_time }

/-- Session-level fields `calculate_overall_summary` reads from the
decoded session info (passed through verbatim). -/
structure SessionInfo where
  sport : Option String := none
  activity_name : Option String := none
  start_time : Option Int := none
  pool_length : Option ℚ := none
  normalized_power : Option ℚ := none
  intensity_factor : Option ℚ := none
  tss : Option ℚ := none
  avg_temp : Option ℚ := none
  total_ascent : Option ℚ := none
  total_descent : Option ℚ := none
  total_calories : Option ℚ := none
  training_effect : Option ℚ := none
  num_active_lengths : Option ℚ := none
  left_balance : Option ℚ := none
  vo2_max : Option ℚ := none
deriving DecidableEq, Repr

/-- The whole-session summary dict. -/
structure Summary where
  sport : String
  activity_name : String
  start_time : Option Int
  pool_length : Option ℚ
  total_duration : String
  active_time : String
  total_distance : String
  overall_pace : String
  overall_swim_pace : String
  overall_speed : String
  avg_hr : Option Int
  max_hr : Option Int
  avg_cadence : Option Int
  avg_power : Option Int
  normalized_power : Option ℚ
  intensity_factor : Option ℚ
  tss : Option ℚ
  avg_temp : Option ℚ
  total_ascent : Option ℚ
  total_descent : Option ℚ
  calories : Option ℚ
  training_effect : Option ℚ
  total_laps : Nat
  active_laps : Nat
  total_strokes : ℚ
  num_lengths : Option ℚ
  left_balance : Option ℚ
  vo2_max : Option ℚ
deriving DecidableEq, Repr

/-- The summary's active laps: rest laps excluded for swimming only. -/
def summaryActiveLaps (actual_laps : List Lap) (session_info : SessionInfo) : List Lap :=
  if session_info.sport.getD "running" = "swimming" then
    actual_laps.filter (fun l => !l.is_rest)
  else actual_laps

/-- Total active duration (denominator of the overall pace/speed). -/
def summaryActiveTime (actual_laps : List Lap) (session_info : SessionInfo) : ℚ :=
  ((summaryActiveLaps actual_laps session_info).map (·.duration_seconds)).sum

/-- Total active distance (numerator of the overall pace/speed). -/
def summaryActiveDistance (actual_laps : List Lap) (session_info : SessionInfo) : ℚ :=
  ((summaryActiveLaps actual_laps session_info).map (·.distance_m)).sum

/-- `calculate_overall_summary` (`.ok none` models the empty-dict return
for an empty lap list). -/
def calculate_overall_summary (actual_laps : List Lap) (session_info : SessionInfo) :
    Except String (Option Summary) :=
  match actual_laps with
  | [] => .ok none
  | _ =>
    let sport := session_info.sport.getD "running"
    let active_laps := summaryActiveLaps actual_laps session_info
    let total_duration := (actual_laps.map (·.duration_seconds)).sum
    let total_distance := summaryActiveDistance actual_laps session_info
    let active_time := summaryActiveTime actual_laps session_info
    let hr_values := active_laps.filterMap (fun l => truthyQ l.avg_hr)
    let max_hr_values := active_laps.filterMap (fun l => truthyQ l.max_hr)
    let cadence_values := active_laps.filterMap (fun l => truthyQ l.cadence)
    let power_values := active_laps.filterMap (fun l => truthyQ l.avg_power)
    let paceE : Except String String :=
      if 0 < active_time then
        match pyDiv total_distance active_time with
        | .error e => .error e
        | .ok q => format_pace q
      else .ok "--:--"
    match paceE with
    | .error e => .error e
    | .ok overall_pace =>
      let swimPaceE : Except String String :=
        if 0 < active_time then
          match pyDiv total_distance active_time with
          | .error e => .error e
          | .ok q => format_swim_pace q
        else .ok "--:--"
      match swimPaceE with
      | .error e => .error e
      | .ok overall_swim_pace =>
        let speedE : Except String String :=
          if 0 < active_time then
            match pyDiv total_distance active_time with
            | .error e => .error e
            | .ok q => .ok (format_speed q)
          else .ok "--.-"
        match speedE with
        | .error e => .error e
        | .ok overall_speed =>
          match avgIntOf hr_values with
          | .error e => .error e
          | .ok avg_hr =>
            match avgIntOf cadence_values with
            | .error e => .error e
            | .ok avg_cadence =>
              match avgIntOf power_values with
              | .error e => .error e
              | .ok avg_power =>
                .ok (some
                  { sport := sport
                    activity_name := session_info.activity_name.getD "Activity"
                    start_time := session_info.start_time
                    pool_length := session_info.pool_length
                    total_duration := format_duration (pyInt total_duration)
                    active_time := format_duration (pyInt active_time)
                    total_distance :=
                      if 1000 ≤ total_distance then formatFixed2 (total_distance / 1000) ++ " km"
                      else toString (pyInt total_distance) ++ "m"
                    overall_pace := overall_pace
                    overall_swim_pace := overall_swim_pace
                    overall_speed := overall_speed
                    avg_hr := avg_hr
                    max_hr :=
                      match max_hr_values with
                      | [] => none
                      | _ => some (pyInt (listMaxQ max_hr_values))
                    avg_cadence := avg_cadence
                    avg_power := avg_power
                    normalized_power := session_info.normalized_power
                    intensity_factor := session_info.intensity_factor
                    tss := session_info.tss
                    avg_temp := session_info.avg_temp
                    total_ascent := session_info.total_ascent
                    total_descent := session_info.total_descent
                    calories := session_info.total_calories
                    training_effect := session_info.training_effect
                    total_laps := actual_laps.length
                    active_laps := active_laps.length
                    total_strokes := (active_laps.map (fun l => (truthyQ l.total_strokes).getD 0)).sum
                    num_lengths := session_info.num_active_lengths
                    left_balance := session_info.left_balance
                    vo2_max := session_info.vo2_max })

/-! ## Concrete artifacts used by the claim theorems -/

/-- The flagship running plan line from the app's own syntax help. -/
def lineC1 : String := "Hard 8m 90-92% Pace (5:49-5:57 for 1.3km)"

/-- A 400 m swim target block. -/
def b400 : Block :=
  { interval_type := "WORK", duration_seconds := 0, target_distance_m := some 400,
    swim_stroke := none, pace_range := none, target_pace_min_ms := none,
    target_pace_max_ms := none, power_range := none, target_power_min := none,
    target_power_max := none, intensity_range := none, raw_text := "400m" }

/-- A plain swim lap of the given duration and distance. -/
def mkSwimLap (d dist : ℚ) : Lap :=
  ⟨d, dist, none, none, none, none, none, none, false⟩

/-- The 100/100/100/105 m lap sequence of the distance-tolerance property. -/
def swimLaps4 : List Lap := [mkSwimLap 60 100, mkSwimLap 61 100, mkSwimLap 62 100, mkSwimLap 63 105]

/-- The `Hard 8m` block as parsed inside a repetition group. -/
def hardBlock (r : Option Nat) : Block :=
  { interval_type := "WORK", duration_seconds := 480, target_distance_m := some 8,
    swim_stroke := none, pace_range := none, target_pace_min_ms := none,
    target_pace_max_ms := none, power_range := none, target_power_min := none,
    target_power_max := none, intensity_range := none, raw_text := "Hard 8m",
    is_main_set := true, round_number := r }

/-- The `Easy 2m` block as parsed inside a repetition group. -/
def easyBlock (r : Option Nat) : Block :=
  { interval_type := "RECOVERY", duration_seconds := 120, target_distance_m := some 2,
    swim_stroke := none, pace_range := none, target_pace_min_ms := none,
    target_pace_max_ms := none, power_range := none, target_power_min := none,
    target_power_max := none, intensity_range := none, raw_text := "Easy 2m",
    is_main_set := true, round_number := r }

/-- A raw FIT lap that survives the 5-second filter. -/
def rlC6 : RawLap :=
  { total_elapsed_time := some 10, total_distance := some 100, enhanced_avg_speed := some 2 }

/-! ## Helper lemmas -/

theorem pyDiv_ok {a b : ℚ} (h : b ≠ 0) : pyDiv a b = .ok (a / b) := by
  simp [pyDiv, h]

theorem format_pace_ok (q : ℚ) : ∃ s, format_pace q = .ok s := by
  unfold format_pace
  by_cases h : q ≤ 0
  · exact ⟨_, by rw [if_pos h]⟩
  · rw [if_neg h, pyDiv_ok (fun hq => h (le_of_eq hq))]
    exact ⟨_, rfl⟩

theorem format_swim_pace_ok (q : ℚ) : ∃ s, format_swim_pace q = .ok s := by
  unfold format_swim_pace
  by_cases h : q ≤ 0
  · exact ⟨_, by rw [if_pos h]⟩
  · rw [if_neg h, pyDiv_ok (fun hq => h (le_of_eq hq))]
    exact ⟨_, rfl⟩

theorem avgQOf_ok (vs : List ℚ) : ∃ o, avgQOf vs = .ok o := by
  unfold avgQOf
  match vs with
  | [] => exact ⟨none, rfl⟩
  | v :: rest =>
    dsimp only
    have hne : (((v :: rest).length : ℚ)) ≠ 0 := Nat.cast_ne_zero.mpr (by simp)
    rw [pyDiv_ok hne]
    exact ⟨_, rfl⟩

theorem avgIntOf_ok (vs : List ℚ) : ∃ o, avgIntOf vs = .ok o := by
  unfold avgIntOf
  match vs with
  | [] => exact ⟨none, rfl⟩
  | v :: rest =>
    dsimp only
    have hne : (((v :: rest).length : ℚ)) ≠ 0 := Nat.cast_ne_zero.mpr (by simp)
    rw [pyDiv_ok hne]
    exact ⟨_, rfl⟩

/-- `mkGroup` is total (all its division sites are guarded) and copies the
planned block and the consumed laps unchanged. -/
theorem mkGroup_ok (sport : String) (p : Block) (laps : List Lap) :
    ∃ g, mkGroup sport p laps = .ok g ∧ g.planned = p ∧ g.actual_laps = laps := by
  unfold mkGroup
  match laps with
  | [] => exact ⟨_, rfl, rfl, rfl⟩
  | l0 :: rest =>
    dsimp only
    have havg : ∃ q, (if 0 < (((l0 :: rest).map (·.duration_seconds)).sum : ℚ) then
        pyDiv (((l0 :: rest).map (·.distance_m)).sum) (((l0 :: rest).map (·.duration_seconds)).sum)
        else .ok 0) = Except.ok q := by
      by_cases h : 0 < (((l0 :: rest).map (·.duration_seconds)).sum : ℚ)
      · rw [if_pos h, pyDiv_ok (ne_of_gt h)]; exact ⟨_, rfl⟩
      · rw [if_neg h]; exact ⟨0, rfl⟩
    obtain ⟨q, hq⟩ := havg
    obtain ⟨ap, hap⟩ := format_pace_ok q
    obtain ⟨sp, hsp⟩ := format_swim_pace_ok q
    obtain ⟨ah, hah⟩ := avgQOf_ok ((l0 :: rest).filterMap (fun l => truthyQ l.avg_hr))
    obtain ⟨ac, hac⟩ := avgIntOf_ok ((l0 :: rest).filterMap (fun l => truthyQ l.cadence))
    obtain ⟨apw, hapw⟩ := avgIntOf_ok ((l0 :: rest).filterMap (fun l => truthyQ l.avg_power))
    rw [hq]; dsimp only
    rw [hap]; dsimp only
    rw [hsp]; dsimp only
    rw [hah]; dsimp only
    rw [hac]; dsimp only
    rw [hapw]; dsimp only
    exact ⟨_, rfl, rfl, rfl⟩

theorem swimConsume_append (target tol : ℚ) (laps : List Lap) : ∀ acc : ℚ,
    (swimConsume target tol acc laps).1 ++ (swimConsume target tol acc laps).2 = laps := by
  induction laps with
  | nil => intro acc; simp [swimConsume]
  | cons lap rest ih =>
    intro acc
    simp only [swimConsume]
    split
    · simp
    · split
      · simp
      · simpa using ih (acc + lap.distance_m)

theorem durConsume_append (target tol : ℚ) (laps : List Lap) : ∀ acc : ℚ,
    (durConsume target tol acc laps).1 ++ (durConsume target tol acc laps).2 = laps := by
  induction laps with
  | nil => intro acc; simp [durConsume]
  | cons lap rest ih =>
    intro acc
    simp only [durConsume]
    split
    · simp
    · split
      · simp
      · simpa using ih (acc + lap.duration_seconds)

/-- The per-block consumption always splits the remaining laps: what is
taken followed by what is left is exactly the input. -/
theorem consumeFor_append (sport : String) (p : Block) (laps : List Lap) :
    (consumeFor sport p laps).1 ++ (consumeFor sport p laps).2 = laps := by
  unfold consumeFor
  split
  · split
    · exact swimConsume_append _ _ _ _
    · simp
  · split
    · exact durConsume_append _ _ _ _
    · split <;> simp

/-! ## Claim theorems -/

set_option maxRecDepth 8000

/-- C2: for every planned-block list, lap list and sport, the output of
`group_laps_by_planned` consumes laps with a single forward pointer: the
concatenation of the groups' `actual_laps`, in group order, is a prefix of
the input lap list (hence the groups are pairwise disjoint contiguous
slices in original order), and each group's `actual_laps` is a contiguous
infix of the input. -/
theorem claim_C2_matcher_forward (planned : List Block) (laps : List Lap) (sport : String)
    (gs : List Group) (h : group_laps_by_planned planned laps sport = .ok gs) :
    ((gs.map Group.actual_laps).flatten <+: laps) ∧ ∀ g ∈ gs, g.actual_laps <:+: laps := by
  induction planned generalizing laps gs with
  | nil =>
    rw [group_laps_by_planned] at h
    injection h with h
    subst h
    exact ⟨List.nil_prefix, by simp⟩
  | cons p ps ih =>
    rw [group_laps_by_planned] at h
    obtain ⟨g, hmk, hgp, hga⟩ := mkGroup_ok sport p (consumeFor sport p laps).1
    rw [hmk] at h
    revert h
    match hrec : group_laps_by_planned ps (consumeFor sport p laps).2 sport with
    | .error e => intro h; cases h
    | .ok gs' =>
      intro h
      injection h with h
      subst h
      obtain ⟨hpre, hinf⟩ := ih (consumeFor sport p laps).2 gs' hrec
      have hsplit := consumeFor_append sport p laps
      have hp1 : (consumeFor sport p laps).1 <+: laps := ⟨_, hsplit⟩
      have hp2 : (consumeFor sport p laps).2 <:+ laps := ⟨_, hsplit⟩
      constructor
      · obtain ⟨t, ht⟩ := hpre
        refine ⟨t, ?_⟩
        rw [List.map_cons, List.flatten_cons, hga, List.append_assoc, ht, hsplit]
      · intro g' hg'
        rcases List.mem_cons.mp hg' with hgg | hmem
        · subst hgg
          rw [hga]
          exact hp1.isInfix
        · exact (hinf g' hmem).trans hp2.isInfix

/-- C1 (code_bug evidence): evaluating `parse_intervals_icu_line` at the
line `"Hard 8m 90-92% Pace (5:49-5:57 for 1.3km)"`: the duration is 480 s
and `5:49` is indeed never read as a duration, but — contrary to the claim
and the spec — the distance target comes out as 8 m (the `8m` duration
token re-read as a bare meters token, because `1.3km` is followed by `)`
and fails the km pattern) and no pace range at all is extracted (the text
`for 1.3km` sits inside the parentheses, so neither pace pattern matches). -/
theorem claim_C1_failing_eval :
    parse_intervals_icu_line lineC1.toList = .ok (some
      { interval_type := "WORK", duration_seconds := 480, target_distance_m := some 8,
        swim_stroke := none, pace_range := none, target_pace_min_ms := none,
        target_pace_max_ms := none, power_range := none, target_power_min := none,
        target_power_max := none, intensity_range := some "90–92%",
        raw_text := lineC1 }) := by decide

/-- C3: with a 400 m swim target and laps of 100/100/100/105 m, the matcher
assigns exactly the four laps to the block (accumulation reaches
405 ≥ 400 − 15 only after the fourth lap). -/
theorem claim_C3_distance_tolerance :
    (group_laps_by_planned [b400] swimLaps4 "swimming").map (List.map Group.actual_laps) =
      .ok [swimLaps4] := by with_unfolding_all decide

/-- C5: `"4x\nHard 8m\nEasy 2m"` parses into eight blocks, the k-th
Hard/Easy pair stamped with round number k (k = 1..4), all tagged as main
set, with `max_repetitions = 4`. -/
theorem claim_C5_repetition_expansion :
    parse_plan_text "4x\nHard 8m\nEasy 2m" = .ok
      ([hardBlock (some 1), easyBlock (some 1), hardBlock (some 2), easyBlock (some 2),
        hardBlock (some 3), easyBlock (some 3), hardBlock (some 4), easyBlock (some 4)], 4) := by
  with_unfolding_all decide

/-- C6 (counterexample): the Lap Normalizer is not idempotent — feeding the
output of `process_fit_laps` back in (through the raw keys the function
reads) does not return the same values: the round trip yields `[]`, while
the first pass keeps a lap. -/
theorem claim_C6_counterexample :
    (process_fit_laps [rlC6] "running" 5).bind
        (fun out => process_fit_laps (out.map rawOfProcessed) "running" 5) ≠
      process_fit_laps [rlC6] "running" 5 := by with_unfolding_all decide

/-- C7 (counterexample): in the land case the stored minimum speed is
derived from the SECOND captured pace (6:41 → 1000/401 m/s), not from the
first (6:01 → 1000/361 m/s) as the claim states. -/
theorem claim_C7_counterexample :
    (parse_intervals_icu_line "Hard 8m (6:01-6:41)".toList).map
        (Option.map Block.target_pace_min_ms) = .ok (some (some (1000 / 401 : ℚ)))
    ∧ parse_pace_to_speed "6:41".toList = (1000 / 401 : ℚ)
    ∧ parse_pace_to_speed "6:01".toList = (1000 / 361 : ℚ)
    ∧ (1000 / 401 : ℚ) ≠ (1000 / 361 : ℚ) := by with_unfolding_all decide

/-- C8 (counterexample): a plan whose only multiplier is `1x` yields
`max_repetitions = 0`, not 1 — the `repetitions > 1` guard ignores `1x`. -/
theorem claim_C8_counterexample :
    parse_plan_text "1x\nHard 8m" = .ok ([hardBlock none], 0) := by with_unfolding_all decide

/-- C10 (counterexample): `"Breaststroke 100m"` is classified WORK, not
RECOVERY — "breaststroke" does not in fact contain the substring "rest". -/
theorem claim_C10_counterexample :
    get_interval_type "Breaststroke 100m".toList = "WORK" ∧
    get_interval_type "Breaststroke 100m".toList ≠ "RECOVERY" := by with_unfolding_all decide

theorem keepBlock_good {b : Block} (h : keepBlock b = true) :
    0 < b.duration_seconds ∨ b.target_distance_m ≠ none := by
  simp only [keepBlock, Bool.or_eq_true, decide_eq_true_eq] at h
  rcases h with h | h
  · exact Or.inl h
  · right
    cases hd : b.target_distance_m with
    | none => rw [hd] at h; simp at h
    | some d => simp

theorem expandReps_good {reps : Nat} {subs : List Block}
    (h : ∀ b ∈ subs, 0 < b.duration_seconds ∨ b.target_distance_m ≠ none) :
    ∀ b ∈ expandReps reps subs, 0 < b.duration_seconds ∨ b.target_distance_m ≠ none := by
  intro b hb
  simp only [expandReps, List.mem_flatMap, List.mem_map] at hb
  obtain ⟨r, _, b0, hb0, rfl⟩ := hb
  exact h b0 hb0

theorem collectBody_good : ∀ (L : List (List Char)) (subs : List Block) (rem : List (List Char)),
    collectBody L = (.ok subs, rem) →
    ∀ b ∈ subs, 0 < b.duration_seconds ∨ b.target_distance_m ≠ none := by
  intro L
  induction L with
  | nil =>
    intro subs rem h b hb
    simp only [collectBody, Prod.mk.injEq, Except.ok.injEq] at h
    obtain ⟨rfl, -⟩ := h
    cases hb
  | cons ln rest ih =>
    intro subs rem h b hb
    rw [collectBody] at h
    split at h
    · exact ih subs rem h b hb
    · split at h
      · simp only [Prod.mk.injEq, Except.ok.injEq] at h
        obtain ⟨rfl, -⟩ := h
        cases hb
      · split at h
        · simp only [Prod.mk.injEq, Except.ok.injEq] at h
          obtain ⟨rfl, -⟩ := h
          cases hb
        · split at h
          · simp at h
          · split at h
            · simp at h
            · next subs' rem' heq =>
              split at h
              · next b' =>
                split at h
                · next hkeep =>
                  simp only [Prod.mk.injEq, Except.ok.injEq] at h
                  obtain ⟨rfl, -⟩ := h
                  rcases List.mem_cons.mp hb with rfl | hmem
                  · exact keepBlock_good hkeep
                  · exact ih subs' rem' heq b hmem
                · simp only [Prod.mk.injEq, Except.ok.injEq] at h
                  obtain ⟨rfl, -⟩ := h
                  exact ih subs' rem' heq b hb
              · simp only [Prod.mk.injEq, Except.ok.injEq] at h
                obtain ⟨rfl, -⟩ := h
                exact ih subs' rem' heq b hb

theorem parseParts_good : ∀ (parts : List (List Char)) (subs : List Block),
    parseParts parts = .ok subs →
    ∀ b ∈ subs, 0 < b.duration_seconds ∨ b.target_distance_m ≠ none := by
  intro parts
  induction parts with
  | nil =>
    intro subs h b hb
    simp only [parseParts, Except.ok.injEq] at h
    subst h
    cases hb
  | cons part rest ih =>
    intro subs h b hb
    rw [parseParts] at h
    split at h
    · cases h
    · split at h
      · cases h
      · next subs' heq =>
        split at h
        · next b' =>
          split at h
          · next hkeep =>
            injection h with h
            subst h
            rcases List.mem_cons.mp hb with rfl | hmem
            · exact keepBlock_good hkeep
            · exact ih subs' heq b hmem
          · injection h with h
            subst h
            exact ih subs' heq b hb
        · injection h with h
          subst h
          exact ih subs' heq b hb

/-- Invariant of the plan-parsing loop: every emitted block passed the
output filter, and the returned `num_rounds` is 0 or at least 2 (only
`repetitions > 1` is ever folded into the running maximum). -/
theorem parsePlanLinesF_inv : ∀ (fuel : Nat) (L : List (List Char)) (bs : List Block) (n : Nat),
    parsePlanLinesF fuel L = .ok (bs, n) →
    (∀ b ∈ bs, 0 < b.duration_seconds ∨ b.target_distance_m ≠ none) ∧ (n = 0 ∨ 2 ≤ n) := by
  intro fuel
  induction fuel with
  | zero =>
    intro L bs n h
    simp only [parsePlanLinesF, Except.ok.injEq, Prod.mk.injEq] at h
    obtain ⟨rfl, rfl⟩ := h
    exact ⟨by simp, Or.inl rfl⟩
  | succ fuel ih =>
    intro L bs n h
    match L with
    | [] =>
      simp only [parsePlanLinesF, Except.ok.injEq, Prod.mk.injEq] at h
      obtain ⟨rfl, rfl⟩ := h
      exact ⟨by simp, Or.inl rfl⟩
    | ln :: rest =>
      rw [parsePlanLinesF] at h
      split at h
      · exact ih rest bs n h
      · split at h
        · -- standalone multiplier
          next reps hmult =>
          split at h
          · cases h
          · next subs rem hcb =>
            split at h
            · cases h
            · next bs' nr hpp =>
              injection h with h
              injection h with h1 h2
              subst h1
              subst h2
              obtain ⟨ihgood, ihnr⟩ := ih rem bs' nr hpp
              constructor
              · intro b hb
                rcases List.mem_append.mp hb with hm | hm
                · exact expandReps_good (collectBody_good rest subs rem hcb) b hm
                · exact ihgood b hm
              · split
                · next hreps => right; exact le_max_of_le_right hreps
                · exact ihnr
        · split at h
          · -- inline multiplier
            next reps restLine hmult =>
            split at h
            · cases h
            · next subs hpp =>
              split at h
              · cases h
              · next bs' nr hpp2 =>
                injection h with h
                injection h with h1 h2
                subst h1
                subst h2
                obtain ⟨ihgood, ihnr⟩ := ih rest bs' nr hpp2
                constructor
                · intro b hb
                  rcases List.mem_append.mp hb with hm | hm
                  · exact expandReps_good (parseParts_good _ subs hpp) b hm
                  · exact ihgood b hm
                · split
                  · next hreps => right; exact le_max_of_le_right hreps
                  · exact ihnr
          · -- regular line
            split at h
            · cases h
            · split at h
              · cases h
              · next bs' nr hpp =>
                split at h
                · next b' =>
                  split at h
                  · next hkeep =>
                    injection h with h
                    injection h with h1 h2
                    subst h1
                    subst h2
                    obtain ⟨ihgood, ihnr⟩ := ih rest bs' nr hpp
                    refine ⟨?_, ihnr⟩
                    intro b hb
                    rcases List.mem_cons.mp hb with rfl | hmem
                    · exact keepBlock_good hkeep
                    · exact ihgood b hmem
                  · injection h with h
                    injection h with h1 h2
                    subst h1
                    subst h2
                    exact ih rest bs' nr hpp
                · injection h with h
                  injection h with h1 h2
                  subst h1
                  subst h2
                  exact ih rest bs' nr hpp

/-- C4: every block emitted by `parse_plan_text` has a positive duration
target or a non-null distance target; candidates with neither are dropped
by the output filter and never appear. -/
theorem claim_C4_output_filter (text : String) (bs : List Block) (n : Nat)
    (h : parse_plan_text text = .ok (bs, n)) :
    ∀ b ∈ bs, 0 < b.duration_seconds ∨ b.target_distance_m ≠ none :=
  (parsePlanLinesF_inv _ _ bs n h).1

/-- C8 (amended): the `max_repetitions` value returned by
`parse_plan_text` is never 1 — only multiplier groups with
`repetitions > 1` are folded into the running maximum, so the result is 0
(no such group, e.g. a plan whose only multiplier is `1x`) or at least 2. -/
theorem claim_C8_amended (text : String) (bs : List Block) (n : Nat)
    (h : parse_plan_text text = .ok (bs, n)) : n = 0 ∨ 2 ≤ n :=
  (parsePlanLinesF_inv _ _ bs n h).2

/-- A no-target block (neither duration nor distance): the matcher's
fallback path consumes exactly one lap for it. -/
def p0 : Block :=
  { interval_type := "WORK", duration_seconds := 0, target_distance_m := none,
    swim_stroke := none, pace_range := none, target_pace_min_ms := none,
    target_pace_max_ms := none, power_range := none, target_power_min := none,
    target_power_max := none, intensity_range := none, raw_text := "x" }

/-- A single active lap with no optional metrics. -/
def lapW : Lap := ⟨60, 0, none, none, none, none, none, none, false⟩

/-- The group the matcher builds for `p0` over `[lapW]`. -/
def gW : Group :=
  ⟨p0, [lapW], some
    { sport := "running", duration_seconds := 60, distance_m := 0, avg_speed_ms := 0,
      avg_pace := "--:--", swim_pace := "--:--", avg_speed_kmh := "--.-",
      start_hr := none, end_hr := none, avg_hr := none, max_hr := 0, cadence := none,
      avg_power := none, total_strokes := 0, swim_stroke := none, is_rest := false,
      num_laps_combined := 1 }⟩

theorem claim_C2_witness :
    (([gW].map Group.actual_laps).flatten <+: [lapW]) ∧ gW.actual_laps <:+: [lapW] :=
  ⟨(claim_C2_matcher_forward [p0] [lapW] "running" [gW] (by with_unfolding_all decide)).1,
   (claim_C2_matcher_forward [p0] [lapW] "running" [gW] (by with_unfolding_all decide)).2
     gW (by simp)⟩

/-- `Hard 8m` parsed as a top-level (non-main-set) line. -/
def hardTop : Block :=
  { interval_type := "WORK", duration_seconds := 480, target_distance_m := some 8,
    swim_stroke := none, pace_range := none, target_pace_min_ms := none,
    target_pace_max_ms := none, power_range := none, target_power_min := none,
    target_power_max := none, intensity_range := none, raw_text := "Hard 8m" }

theorem claim_C4_witness :
    0 < hardTop.duration_seconds ∨ hardTop.target_distance_m ≠ none :=
  claim_C4_output_filter "Hard 8m" [hardTop] 0 (by decide) hardTop (by simp)

theorem claim_C8_witness : (4 : Nat) = 0 ∨ 2 ≤ 4 :=
  claim_C8_amended "4x\nHard 8m"
    [hardBlock (some 1), hardBlock (some 2), hardBlock (some 3), hardBlock (some 4)] 4
    (by decide)

/-- The skip loop of `process_fit_laps` drops every lap whose raw record
has no `total_elapsed_time` key (so `lap.get('total_elapsed_time', 0)` is
0), as long as the minimum duration is positive or the sport is swimming. -/
theorem processFitAux_all_skip (sport : String) (mind : Int) :
    ∀ (L : List RawLap) (i kept : Nat), (∀ l ∈ L, l.total_elapsed_time = none) →
    (1 ≤ mind ∨ sport = "swimming") →
    processFitAux sport mind L i kept = .ok [] := by
  intro L
  induction L with
  | nil => intro i kept _ _; rfl
  | cons lap rest ih =>
    intro i kept hmem hmind
    have h0 : lap.total_elapsed_time = none := hmem lap (List.mem_cons_self _ _)
    rw [processFitAux]
    have hcond : ((sport ≠ "swimming" && (lap.total_elapsed_time.getD 0 < (mind : ℚ))) ||
        (sport = "swimming" && (lap.total_elapsed_time.getD 0 < 3))) = true := by
      rw [h0]
      by_cases hsw : sport = "swimming"
      · simp [hsw]
      · rcases hmind with hm | hm
        · have : (0 : ℚ) < (mind : ℚ) := by exact_mod_cast hm
          simp [hsw, this]
        · exact absurd hm hsw
    rw [if_pos (by simpa using hcond)]
    exact ih (i + 1) kept (fun l hl => hmem l (List.mem_cons_of_mem _ hl)) hmind

/-- C6 (amended): the Lap Normalizer is not idempotent; instead, feeding
its output back in (through the raw-lap keys it reads) always yields the
empty list whenever the minimum duration is positive or the sport is
swimming, because normalized laps carry no `total_elapsed_time` key and
are filtered out as too short.  Idempotence therefore holds only when the
first pass already returns nothing. -/
theorem claim_C6_amended (laps : List RawLap) (sport : String) (mind : Int)
    (out : List ProcessedLap) (hmind : 1 ≤ mind ∨ sport = "swimming")
    (_ : process_fit_laps laps sport mind = .ok out) :
    process_fit_laps (out.map rawOfProcessed) sport mind = .ok [] :=
  processFitAux_all_skip sport mind _ 0 0
    (by
      intro l hl
      simp only [List.mem_map] at hl
      obtain ⟨pl, -, rfl⟩ := hl
      rfl)
    hmind

/-- The normalized lap `process_fit_laps` builds from `rlC6`. -/
def plC6 : ProcessedLap :=
  { lap_number := 1, original_lap_number := 1, start_time := none, sport := "running",
    duration_seconds := 10, distance_m := 100, avg_speed_ms := 2, max_speed_ms := 0,
    avg_pace := "8:20", swim_pace := "0:50", avg_speed_kmh := "7.2", avg_hr := none,
    max_hr := none, avg_power := none, max_power := none, normalized_power := none,
    cadence := none, max_cadence := none, swim_stroke := none, total_strokes := none,
    num_lengths := 0, swolf := none, gct := none, stride_length := none,
    temperature := none, total_ascent := 0, total_descent := 0, left_balance := none,
    is_rest := false }

theorem claim_C6_witness :
    process_fit_laps ([plC6].map rawOfProcessed) "running" 5 = .ok [] :=
  claim_C6_amended [rlC6] "running" 5 [plC6] (Or.inl (by norm_num))
    (by with_unfolding_all decide)

/-- C7 (amended): both pace forms store the minimum (slower-pace) speed
from the SECOND captured `MM:SS` value and the maximum from the first —
swim captures are slow-fast, land captures fast-slow, but the
capture-to-field mapping is the same in both branches; there is no
land/swim asymmetry. -/
theorem claim_C7_amended (line : List Char) (g1 g2 : List Char) :
    (findSwimPace line = some (g1, g2) →
      (paceFieldsOf line).2.1 = some (parse_swim_pace_to_speed g2) ∧
      (paceFieldsOf line).2.2 = some (parse_swim_pace_to_speed g1)) ∧
    (findSwimPace line = none → findRunPace line = some (g1, g2) →
      (paceFieldsOf line).2.1 = some (parse_pace_to_speed g2) ∧
      (paceFieldsOf line).2.2 = some (parse_pace_to_speed g1)) := by
  constructor
  · intro h
    simp [paceFieldsOf, h]
  · intro h1 h2
    simp [paceFieldsOf, h1, h2]

theorem claim_C7_witness :
    (paceFieldsOf "Hard 8m (6:01-6:41)".toList).2.1 =
        some (parse_pace_to_speed "6:41".toList) ∧
    (paceFieldsOf "Hard 8m (6:01-6:41)".toList).2.2 =
        some (parse_pace_to_speed "6:01".toList) :=
  (claim_C7_amended "Hard 8m (6:01-6:41)".toList "6:01".toList "6:41".toList).2
    (by decide) (by decide)

/-- C10 (amended): interval classification is raw substring containment on
the lower-cased line with RECOVERY checked first, so any line containing
"rest" is RECOVERY regardless of other keywords; but "breast" and
"breaststroke" do not contain "rest", so `Breaststroke 100m` falls through
to the WORK default. -/
theorem claim_C10_amended :
    get_interval_type "Breaststroke 100m".toList = "WORK" ∧
    ∀ s : List Char, containsSub "rest".toList (s.map Char.toLower) = true →
      get_interval_type s = "RECOVERY" := by
  constructor
  · decide
  · intro s h
    unfold get_interval_type
    rw [if_pos]
    simp only [List.map_cons, List.map_nil, List.any_cons, Bool.or_eq_true]
    left
    exact h

theorem claim_C10_witness :
    containsSub "rest".toList ("Rest 30s".toList.map Char.toLower) = true ∧
    get_interval_type "Rest 30s".toList = "RECOVERY" :=
  ⟨by decide, claim_C10_amended.2 "Rest 30s".toList (by decide)⟩

/-- The overall pace/swim-pace/speed facts of a computed summary. -/
theorem calculate_overall_summary_spec (l : Lap) (ls : List Lap) (info : SessionInfo) :
    ∃ s0, calculate_overall_summary (l :: ls) info = .ok (some s0) ∧
      ((¬ 0 < summaryActiveTime (l :: ls) info →
        s0.overall_pace = "--:--" ∧ s0.overall_swim_pace = "--:--" ∧
        s0.overall_speed = "--.-") ∧
      (0 < summaryActiveTime (l :: ls) info →
        format_pace (summaryActiveDistance (l :: ls) info / summaryActiveTime (l :: ls) info) =
            .ok s0.overall_pace ∧
        format_swim_pace
            (summaryActiveDistance (l :: ls) info / summaryActiveTime (l :: ls) info) =
            .ok s0.overall_swim_pace ∧
        s0.overall_speed =
          format_speed
            (summaryActiveDistance (l :: ls) info / summaryActiveTime (l :: ls) info))) := by
  rw [calculate_overall_summary]
  case x_1 => intro h; exact List.noConfusion h
  dsimp only
  by_cases hat : 0 < summaryActiveTime (l :: ls) info
  · rw [if_pos hat, if_pos hat, if_pos hat, pyDiv_ok (ne_of_gt hat)]
    dsimp only
    obtain ⟨ps, hps⟩ := format_pace_ok
      (summaryActiveDistance (l :: ls) info / summaryActiveTime (l :: ls) info)
    rw [hps]
    dsimp only
    obtain ⟨ss, hss⟩ := format_swim_pace_ok
      (summaryActiveDistance (l :: ls) info / summaryActiveTime (l :: ls) info)
    rw [hss]
    dsimp only
    obtain ⟨a1, ha1⟩ := avgIntOf_ok
      ((summaryActiveLaps (l :: ls) info).filterMap (fun x => truthyQ x.avg_hr))
    rw [ha1]
    dsimp only
    obtain ⟨a2, ha2⟩ := avgIntOf_ok
      ((summaryActiveLaps (l :: ls) info).filterMap (fun x => truthyQ x.cadence))
    rw [ha2]
    dsimp only
    obtain ⟨a3, ha3⟩ := avgIntOf_ok
      ((summaryActiveLaps (l :: ls) info).filterMap (fun x => truthyQ x.avg_power))
    rw [ha3]
    dsimp only
    exact ⟨_, rfl, fun hno => absurd hat hno, fun _ => ⟨rfl, rfl, rfl⟩⟩
  · rw [if_neg hat, if_neg hat, if_neg hat]
    dsimp only
    obtain ⟨a1, ha1⟩ := avgIntOf_ok
      ((summaryActiveLaps (l :: ls) info).filterMap (fun x => truthyQ x.avg_hr))
    rw [ha1]
    dsimp only
    obtain ⟨a2, ha2⟩ := avgIntOf_ok
      ((summaryActiveLaps (l :: ls) info).filterMap (fun x => truthyQ x.cadence))
    rw [ha2]
    dsimp only
    obtain ⟨a3, ha3⟩ := avgIntOf_ok
      ((summaryActiveLaps (l :: ls) info).filterMap (fun x => truthyQ x.avg_power))
    rw [ha3]
    dsimp only
    exact ⟨_, rfl, fun _ => ⟨rfl, rfl, rfl⟩, fun hyes => absurd hyes hat⟩

/-- C9: `calculate_overall_summary` never divides by zero — it always
returns a value — and when the total active duration is not positive the
overall pace, swim pace and speed are the placeholder strings, while
otherwise they are total active distance over total active duration,
formatted. -/
theorem claim_C9_division_guard (laps : List Lap) (info : SessionInfo) :
    (∃ r, calculate_overall_summary laps info = .ok r) ∧
    ∀ s, calculate_overall_summary laps info = .ok (some s) →
      ((¬ 0 < summaryActiveTime laps info →
        s.overall_pace = "--:--" ∧ s.overall_swim_pace = "--:--" ∧
        s.overall_speed = "--.-") ∧
      (0 < summaryActiveTime laps info →
        format_pace (summaryActiveDistance laps info / summaryActiveTime laps info) =
            .ok s.overall_pace ∧
        format_swim_pace (summaryActiveDistance laps info / summaryActiveTime laps info) =
            .ok s.overall_swim_pace ∧
        s.overall_speed =
          format_speed (summaryActiveDistance laps info / summaryActiveTime laps info))) := by
  match laps with
  | [] =>
    refine ⟨⟨none, rfl⟩, ?_⟩
    intro s h
    simp [calculate_overall_summary] at h
  | l :: ls =>
    obtain ⟨s0, hs0, hfacts⟩ := calculate_overall_summary_spec l ls info
    refine ⟨⟨some s0, hs0⟩, ?_⟩
    intro s h
    rw [hs0] at h
    injection h with h
    injection h with h
    subst h
    exact hfacts

/-- A swim session consisting of one rest lap: active time is 0. -/
def restLapC9 : Lap := ⟨60, 0, none, none, none, none, none, none, true⟩

def infoC9 : SessionInfo := { sport := some "swimming" }

/-- The summary computed for the all-rest swim session. -/
def sumC9 : Summary :=
  { sport := "swimming", activity_name := "Activity", start_time := none, pool_length := none,
    total_duration := "1:00", active_time := "0:00", total_distance := "0m",
    overall_pace := "--:--", overall_swim_pace := "--:--", overall_speed := "--.-",
    avg_hr := none, max_hr := none, avg_cadence := none, avg_power := none,
    normalized_power := none, intensity_factor := none, tss := none, avg_temp := none,
    total_ascent := none, total_descent := none, calories := none, training_effect := none,
    total_laps := 1, active_laps := 0, total_strokes := 0, num_lengths := none,
    left_balance := none, vo2_max := none }

theorem claim_C9_witness :
    sumC9.overall_pace = "--:--" ∧ sumC9.overall_swim_pace = "--:--" ∧
    sumC9.overall_speed = "--.-" :=
  ((claim_C9_division_guard [restLapC9] infoC9).2 sumC9 (by with_unfolding_all decide)).1
    (by with_unfolding_all decide)

end WorkoutSummarizer
